import Mathlib

/-!
# The schemahero migrations pod of kotsadm

A shallow embedding of `migrationsPod` (pkg/kotsadm/schemahero_objects.go) together with the
Kubernetes record types it fills in, and the properties of the pod it builds.

The three ambient reads of the Go function are explicit arguments here:
`kotsadmRegistry()`, `kotsadmTag()` and `time.Now().Unix()`.
Go pointers are `Option`s (`nil` is `none`), Go slices are lists, and a call that can
panic (`resource.MustParse`) returns an `Option`.
-/

namespace Kotsadm

/-! ## Kubernetes record types used by the builder -/

/-- Go `metav1.TypeMeta`. -/
structure TypeMeta where
  Kind : String := ""
  APIVersion : String := ""
  deriving DecidableEq, Repr

/-- Go `metav1.ObjectMeta`, with the string and map fields of the Go declaration that a
freshly built object carries; the builder sets `Name` and `Namespace` only. -/
structure ObjectMeta where
  Name : String := ""
  GenerateName : String := ""
  Namespace : String := ""
  Labels : List (String × String) := []
  Annotations : List (String × String) := []
  deriving DecidableEq, Repr

/-- Go `corev1.PodSecurityContext`. Pointer fields are optional: `none` is the Go `nil`. -/
structure PodSecurityContext where
  RunAsUser : Option Int := none
  RunAsGroup : Option Int := none
  RunAsNonRoot : Option Bool := none
  SupplementalGroups : List Int := []
  FSGroup : Option Int := none
  deriving DecidableEq, Repr

/-- Go `corev1.LocalObjectReference`. -/
structure LocalObjectReference where
  Name : String := ""
  deriving DecidableEq, Repr

/-- Go `corev1.SecretKeySelector`; the embedded `LocalObjectReference` is a field. -/
structure SecretKeySelector where
  LocalObjectReference : LocalObjectReference := {}
  Key : String := ""
  Optional : Option Bool := none
  deriving DecidableEq, Repr

/-- Go `corev1.ConfigMapKeySelector`. -/
structure ConfigMapKeySelector where
  LocalObjectReference : LocalObjectReference := {}
  Key : String := ""
  Optional : Option Bool := none
  deriving DecidableEq, Repr

/-- Go `corev1.ObjectFieldSelector`. -/
structure ObjectFieldSelector where
  APIVersion : String := ""
  FieldPath : String := ""
  deriving DecidableEq, Repr

/-- Go `corev1.EnvVarSource`: at most one of the references is set. -/
structure EnvVarSource where
  FieldRef : Option ObjectFieldSelector := none
  ConfigMapKeyRef : Option ConfigMapKeySelector := none
  SecretKeyRef : Option SecretKeySelector := none
  deriving DecidableEq, Repr

/-- Go `corev1.EnvVar`. -/
structure EnvVar where
  Name : String := ""
  Value : String := ""
  ValueFrom : Option EnvVarSource := none
  deriving DecidableEq, Repr

/-- Go `resource.Format`. -/
inductive Format where
  | DecimalExponent
  | BinarySI
  | DecimalSI
  deriving DecidableEq, Repr

/-- Go `resource.Quantity`, as an unscaled integer and a decimal scale: the amount is
`value * 10 ^ scale`. -/
structure Quantity where
  value : Int
  scale : Int
  Format : Format
  deriving DecidableEq, Repr

/-- Go `corev1.ResourceName`, a string type. -/
abbrev ResourceName := String

/-- Go `corev1.ResourceCPU`. -/
def ResourceCPU : ResourceName := "cpu"

/-- Go `corev1.ResourceMemory`. -/
def ResourceMemory : ResourceName := "memory"

/-- Go `corev1.ResourceList`, a map from resource names to quantities, kept as the list of
its entries in the order of the map literal. -/
abbrev ResourceList := List (ResourceName × Quantity)

/-- Map lookup `list[name]` with the comma-ok result as an option. -/
def ResourceList.get (l : ResourceList) (name : ResourceName) : Option Quantity :=
  (l.find? (fun e => e.1 == name)).map Prod.snd

/-- Go `corev1.ResourceRequirements`. -/
structure ResourceRequirements where
  Limits : ResourceList := []
  Requests : ResourceList := []
  deriving DecidableEq, Repr

/-- Go `corev1.PullPolicy`, a string type. -/
abbrev PullPolicy := String

/-- Go `corev1.PullAlways`. -/
def PullAlways : PullPolicy := "Always"

/-- Go `corev1.RestartPolicy`, a string type. -/
abbrev RestartPolicy := String

/-- Go `corev1.RestartPolicyOnFailure`. -/
def RestartPolicyOnFailure : RestartPolicy := "OnFailure"

/-- Go `corev1.Container`. -/
structure Container where
  Name : String := ""
  Image : String := ""
  Command : List String := []
  Args : List String := []
  WorkingDir : String := ""
  Env : List EnvVar := []
  Resources : ResourceRequirements := {}
  ImagePullPolicy : PullPolicy := ""
  deriving DecidableEq, Repr

/-- Go `corev1.PodSpec`. `SecurityContext` is a pointer in Go, so it is optional here:
`none` is an absent security context, `some {}` is a present one with every field unset. -/
structure PodSpec where
  InitContainers : List Container := []
  Containers : List Container := []
  RestartPolicy : RestartPolicy := ""
  ServiceAccountName : String := ""
  NodeName : String := ""
  SecurityContext : Option PodSecurityContext := none
  deriving DecidableEq, Repr

/-- Go `corev1.Pod` (the status, which a builder never fills, is left out). -/
structure Pod where
  TypeMeta : TypeMeta := {}
  ObjectMeta : ObjectMeta := {}
  Spec : PodSpec := {}
  deriving DecidableEq, Repr

/-- Modelled from the spec: the declaration of `DeployOptions` is not part of the source
slice. The spec gives the two fields the builder reads, the target namespace and the
platform flag (`IsRestrictedRuntime` there, `IsOpenShift` in the code). -/
structure DeployOptions where
  Namespace : String
  IsOpenShift : Bool
  deriving DecidableEq, Repr

/-! ## Quantities -/

/-- Numeric value of a run of decimal digits, most significant first. -/
def digitsToNat (ds : List Char) : Nat :=
  ds.foldl (fun acc c => 10 * acc + (c.toNat - 48)) 0

/-- Split an optional leading sign off: the flag is `true` for a non-negative number. -/
def splitSign : List Char → Bool × List Char
  | '-' :: r => (false, r)
  | '+' :: r => (true, r)
  | r => (true, r)

/-- Binary and decimal SI suffixes and the decimal exponent form of a quantity:
the result is the base, the exponent and the format. -/
def interpretSuffix : List Char → Option (Nat × Int × Format)
  | ['K', 'i'] => some (2, 10, Format.BinarySI)
  | ['M', 'i'] => some (2, 20, Format.BinarySI)
  | ['G', 'i'] => some (2, 30, Format.BinarySI)
  | ['T', 'i'] => some (2, 40, Format.BinarySI)
  | ['P', 'i'] => some (2, 50, Format.BinarySI)
  | ['E', 'i'] => some (2, 60, Format.BinarySI)
  | ['n'] => some (10, -9, Format.DecimalSI)
  | ['u'] => some (10, -6, Format.DecimalSI)
  | ['m'] => some (10, -3, Format.DecimalSI)
  | [] => some (10, 0, Format.DecimalSI)
  | ['k'] => some (10, 3, Format.DecimalSI)
  | ['M'] => some (10, 6, Format.DecimalSI)
  | ['G'] => some (10, 9, Format.DecimalSI)
  | ['T'] => some (10, 12, Format.DecimalSI)
  | ['P'] => some (10, 15, Format.DecimalSI)
  | ['E'] => some (10, 18, Format.DecimalSI)
  | c :: rest =>
    if c = 'e' ∨ c = 'E' then
      let (pos, ds) := splitSign rest
      if ds ≠ [] ∧ ds.all Char.isDigit then
        let n : Int := digitsToNat ds
        some (10, if pos then n else -n, Format.DecimalExponent)
      else none
    else none

/-- Modelled from the spec: `resource.ParseQuantity` belongs to the Kubernetes apimachinery
library, which is not part of the source slice. The model follows the quantity grammar
`<sign>? <digits> (. <digits>)? <suffix>` with the binary SI, decimal SI and decimal
exponent suffixes, and keeps the amount exact as `value * 10 ^ scale`; the spec reads the
four literals of the builder as 20 and 200 millicores and 128 and 256 MiB. -/
def ParseQuantity (str : String) : Option Quantity :=
  let (pos, s1) := splitSign str.toList
  let (num, s2) := s1.span Char.isDigit
  let (denom, suf) :=
    match s2 with
    | '.' :: r => r.span Char.isDigit
    | r => ([], r)
  if num = [] ∧ denom = [] then none
  else
    match interpretSuffix suf with
    | none => none
    | some (base, exponent, format) =>
      let mag : Int := digitsToNat (num ++ denom)
      let signed : Int := if pos then mag else -mag
      if base = 2 then
        some { value := signed * 2 ^ exponent.toNat, scale := -(denom.length : Int),
               Format := format }
      else
        some { value := signed, scale := exponent - (denom.length : Int), Format := format }

/-- Go `resource.MustParse`: `ParseQuantity`, with the panic on a malformed literal as
`none`. -/
def MustParse (str : String) : Option Quantity :=
  ParseQuantity str

/-- The exact amount a quantity stands for, `value * 10 ^ scale`, as a rational number of
base units (cores for CPU, bytes for memory); nothing is rounded. -/
def Quantity.amount (q : Quantity) : ℚ :=
  (q.value : ℚ) * (10 : ℚ) ^ q.scale

/-- Exact order of two quantities, `a ≤ b`, by bringing both to the smaller scale. -/
def Quantity.le (a b : Quantity) : Bool :=
  let m := min a.scale b.scale
  decide (a.value * 10 ^ (a.scale - m).toNat ≤ b.value * 10 ^ (b.scale - m).toNat)

/-! ## The builder -/

/-- Modelled from the spec: `util.IntPointer` is not part of the source slice; it returns
a pointer to the 64-bit copy of its argument, so the identity is present with that value. -/
def IntPointer (x : Int) : Option Int :=
  some x

/-- Go `fmt.Sprintf("%d", v)` for an `int64`: the decimal digits, after a minus sign for a
negative value. -/
def formatInt (v : Int) : String :=
  toString v

/-- Reads a decimal rendering back: an optional minus sign, then the digits. -/
def readInt (s : String) : Int :=
  match s.data with
  | '-' :: r => -(digitsToNat r : Int)
  | r => (digitsToNat r : Int)

/-- The pod and container name, `fmt.Sprintf("kotsadm-migrations-%d", time.Now().Unix())`,
for the clock reading `now`. -/
def migrationsName (now : Int) : String :=
  "kotsadm-migrations-" ++ formatInt now

/-- The function `migrationsPod` of pkg/kotsadm/schemahero_objects.go. `registry` and `tag`
are what `kotsadmRegistry()` and `kotsadmTag()` return and `now` is `time.Now().Unix()`.
The result is `none` exactly when a `resource.MustParse` panics. -/
def migrationsPod (deployOptions : DeployOptions) (registry tag : String) (now : Int) :
    Option Pod := do
  let name := migrationsName now
  let securityContext : PodSecurityContext :=
    if !deployOptions.IsOpenShift then
      { RunAsUser := IntPointer 1001, FSGroup := IntPointer 1001 }
    else {}
  let requestsCPU ← MustParse "20m"
  let requestsMemory ← MustParse "128Mi"
  let limitsCPU ← MustParse "200m"
  let limitsMemory ← MustParse "256Mi"
  pure {
    TypeMeta := { APIVersion := "v1", Kind := "Pod" }
    ObjectMeta := { Name := name, Namespace := deployOptions.Namespace }
    Spec := {
      SecurityContext := some securityContext
      RestartPolicy := RestartPolicyOnFailure
      Containers := [
        { Image := registry ++ "/kotsadm-migrations:" ++ tag
          ImagePullPolicy := PullAlways
          Name := name
          Env := [
            { Name := "SCHEMAHERO_DRIVER", Value := "postgres" },
            { Name := "SCHEMAHERO_SPEC_FILE", Value := "/tables" },
            { Name := "SCHEMAHERO_URI",
              ValueFrom := some {
                SecretKeyRef := some {
                  LocalObjectReference := { Name := "kotsadm-postgres" }
                  Key := "uri" } } } ]
          Resources := {
            Requests := [(ResourceCPU, requestsCPU), (ResourceMemory, requestsMemory)]
            Limits := [(ResourceCPU, limitsCPU), (ResourceMemory, limitsMemory)] } } ] } }

/-! ## Evaluation of the builder -/

theorem mustParse_requestsCPU : MustParse "20m" = some ⟨20, -3, Format.DecimalSI⟩ := by
  decide

theorem mustParse_requestsMemory :
    MustParse "128Mi" = some ⟨134217728, 0, Format.BinarySI⟩ := by
  decide

theorem mustParse_limitsCPU : MustParse "200m" = some ⟨200, -3, Format.DecimalSI⟩ := by
  decide

theorem mustParse_limitsMemory :
    MustParse "256Mi" = some ⟨268435456, 0, Format.BinarySI⟩ := by
  decide

/-- The builder always returns, and this is the pod it returns. -/
theorem migrationsPod_eq (deployOptions : DeployOptions) (registry tag : String) (now : Int) :
    migrationsPod deployOptions registry tag now = some {
      TypeMeta := { APIVersion := "v1", Kind := "Pod" }
      ObjectMeta := { Name := migrationsName now, Namespace := deployOptions.Namespace }
      Spec := {
        SecurityContext := some
          (if !deployOptions.IsOpenShift then
            { RunAsUser := some 1001, FSGroup := some 1001 }
          else {})
        RestartPolicy := "OnFailure"
        Containers := [
          { Image := registry ++ "/kotsadm-migrations:" ++ tag
            ImagePullPolicy := "Always"
            Name := migrationsName now
            Env := [
              { Name := "SCHEMAHERO_DRIVER", Value := "postgres" },
              { Name := "SCHEMAHERO_SPEC_FILE", Value := "/tables" },
              { Name := "SCHEMAHERO_URI",
                ValueFrom := some {
                  SecretKeyRef := some {
                    LocalObjectReference := { Name := "kotsadm-postgres" }
                    Key := "uri" } } } ]
            Resources := {
              Requests := [("cpu", ⟨20, -3, Format.DecimalSI⟩),
                           ("memory", ⟨134217728, 0, Format.BinarySI⟩)]
              Limits := [("cpu", ⟨200, -3, Format.DecimalSI⟩),
                         ("memory", ⟨268435456, 0, Format.BinarySI⟩)] } } ] } } := by
  unfold migrationsPod
  rw [mustParse_requestsCPU, mustParse_requestsMemory, mustParse_limitsCPU,
    mustParse_limitsMemory]
  rfl

/-! ## Decimal rendering of the clock reading -/

theorem digitChar_toNat (d : Nat) (h : d < 10) : (Nat.digitChar d).toNat - 48 = d := by
  interval_cases d <;> rfl

theorem digitChar_ne_minus (d : Nat) (h : d < 10) : Nat.digitChar d ≠ '-' := by
  interval_cases d <;> decide

/-- Reading the digits that `Nat.toDigitsCore` puts in front of `ds` gives `n` back. -/
theorem foldl_toDigitsCore (fuel : Nat) :
    ∀ (n : Nat) (ds : List Char), n < fuel →
      (Nat.toDigitsCore 10 fuel n ds).foldl (fun acc c => 10 * acc + (c.toNat - 48)) 0
        = ds.foldl (fun acc c => 10 * acc + (c.toNat - 48)) n := by
  induction fuel with
  | zero => intro n ds h; omega
  | succ fuel ih =>
    intro n ds h
    simp only [Nat.toDigitsCore]
    split_ifs with h0
    · have hn : n < 10 := by omega
      simp only [List.foldl_cons, Nat.mul_zero, Nat.zero_add]
      rw [digitChar_toNat _ (Nat.mod_lt _ (by decide)), Nat.mod_eq_of_lt hn]
    · rw [ih (n / 10) _ (by omega)]
      simp only [List.foldl_cons]
      rw [digitChar_toNat _ (Nat.mod_lt _ (by decide))]
      congr 1
      omega

theorem toDigitsCore_ne_minus (fuel : Nat) :
    ∀ (n : Nat) (ds : List Char), (∀ c ∈ ds, c ≠ '-') →
      ∀ c ∈ Nat.toDigitsCore 10 fuel n ds, c ≠ '-' := by
  induction fuel with
  | zero => intro n ds h; simpa [Nat.toDigitsCore] using h
  | succ fuel ih =>
    intro n ds h
    have hcons : ∀ c ∈ Nat.digitChar (n % 10) :: ds, c ≠ '-' := by
      intro c hc
      rcases List.mem_cons.mp hc with rfl | hc
      · exact digitChar_ne_minus _ (Nat.mod_lt _ (by decide))
      · exact h c hc
    simp only [Nat.toDigitsCore]
    split_ifs
    · exact hcons
    · exact ih _ _ hcons

theorem digitsToNat_repr (n : Nat) : digitsToNat (Nat.repr n).data = n := by
  simp only [Nat.repr, Nat.toDigits, List.asString, digitsToNat]
  rw [foldl_toDigitsCore (n + 1) n [] (Nat.lt_succ_self n)]
  rfl

theorem repr_ne_minus (n : Nat) : ∀ c ∈ (Nat.repr n).data, c ≠ '-' := by
  simp only [Nat.repr, Nat.toDigits, List.asString]
  exact toDigitsCore_ne_minus _ _ _ (by simp)

/-- The rendering of `formatInt` is the decimal one: reading it gives the number back. -/
theorem readInt_formatInt (v : Int) : readInt (formatInt v) = v := by
  cases v with
  | ofNat m =>
    show readInt (Nat.repr m) = _
    have h := repr_ne_minus m
    have hd := digitsToNat_repr m
    unfold readInt
    split
    · rename_i r heq
      exact absurd rfl (h '-' (by rw [heq]; exact List.mem_cons_self _ _))
    · rw [hd]; rfl
  | negSucc m =>
    show readInt ("-" ++ Nat.repr (m + 1)) = _
    have hd := digitsToNat_repr (m + 1)
    unfold readInt
    have : ("-" ++ Nat.repr (m + 1)).data = '-' :: (Nat.repr (m + 1)).data := by
      rw [String.data_append]; rfl
    rw [this]
    simp only [hd]
    rfl

theorem formatInt_injective (a b : Int) (h : formatInt a = formatInt b) : a = b := by
  rw [← readInt_formatInt a, ← readInt_formatInt b, h]

theorem migrationsName_eq_iff (a b : Int) : migrationsName a = migrationsName b ↔ a = b := by
  constructor
  · intro h
    apply formatInt_injective
    unfold migrationsName at h
    have hd := congrArg String.data h
    rw [String.data_append, String.data_append] at hd
    exact String.ext (List.append_cancel_left hd)
  · rintro rfl
    rfl

/-! ## The security profile -/

/-- C1, as stated, fails: on OpenShift the pod of namespace "kots-ns" has a security
context that is present (the address of a zero-valued `PodSecurityContext`), not absent. -/
theorem c1_security_context_not_absent :
    (migrationsPod ⟨"kots-ns", true⟩ "registry.example.com" "v1.2.3" 1700000000).map
        (fun pod => pod.Spec.SecurityContext)
      = some (some { RunAsUser := none, RunAsGroup := none, RunAsNonRoot := none,
                     SupplementalGroups := [], FSGroup := none }) ∧
    ¬ ∀ pod, migrationsPod ⟨"kots-ns", true⟩ "registry.example.com" "v1.2.3" 1700000000
        = some pod → pod.Spec.SecurityContext = none := by
  constructor
  · rw [migrationsPod_eq]
    rfl
  · intro h
    have hnone := h _ (migrationsPod_eq _ _ _ _)
    simp at hnone

/-- C1, amended: for every DeployOptions with IsOpenShift = true the builder returns a pod
whose security context is present and is the zero-valued profile: RunAsUser, FSGroup and
every other field of it are unset, so no fixed identity is requested. -/
theorem c1_openshift_security_context_unset (deployOptions : DeployOptions)
    (registry tag : String) (now : Int) (h : deployOptions.IsOpenShift = true) :
    ∃ pod, migrationsPod deployOptions registry tag now = some pod ∧
      pod.Spec.SecurityContext
        = some { RunAsUser := none, RunAsGroup := none, RunAsNonRoot := none,
                 SupplementalGroups := [], FSGroup := none } := by
  refine ⟨_, migrationsPod_eq _ _ _ _, ?_⟩
  simp [h]

theorem c1_openshift_security_context_unset_witness :
    (⟨"kots-ns", true⟩ : DeployOptions).IsOpenShift = true ∧
    ∃ pod, migrationsPod ⟨"kots-ns", true⟩ "registry.example.com" "v1.2.3" 1700000000
        = some pod ∧
      pod.Spec.SecurityContext
        = some { RunAsUser := none, RunAsGroup := none, RunAsNonRoot := none,
                 SupplementalGroups := [], FSGroup := none } :=
  ⟨rfl, c1_openshift_security_context_unset ⟨"kots-ns", true⟩ "registry.example.com"
    "v1.2.3" 1700000000 rfl⟩

/-- C2: for every DeployOptions with IsOpenShift = false the builder returns a pod with a
security context whose RunAsUser and FSGroup are both present and both 1001. -/
theorem c2_standard_security_context_1001 (deployOptions : DeployOptions)
    (registry tag : String) (now : Int) (h : deployOptions.IsOpenShift = false) :
    ∃ pod securityContext, migrationsPod deployOptions registry tag now = some pod ∧
      pod.Spec.SecurityContext = some securityContext ∧
      securityContext.RunAsUser = some 1001 ∧ securityContext.FSGroup = some 1001 := by
  refine ⟨_, _, migrationsPod_eq _ _ _ _, rfl, ?_, ?_⟩ <;> simp [h]

theorem c2_standard_security_context_1001_witness :
    (⟨"kots-ns", false⟩ : DeployOptions).IsOpenShift = false ∧
    ∃ pod securityContext,
      migrationsPod ⟨"kots-ns", false⟩ "registry.example.com" "v1.2.3" 1700000000
        = some pod ∧
      pod.Spec.SecurityContext = some securityContext ∧
      securityContext.RunAsUser = some 1001 ∧ securityContext.FSGroup = some 1001 :=
  ⟨rfl, c2_standard_security_context_1001 ⟨"kots-ns", false⟩ "registry.example.com"
    "v1.2.3" 1700000000 rfl⟩

/-! ## Dependence on the clock and on the platform flag -/

/-- C3, as stated, fails: the pods built at clock readings 1 and 2 from the same options,
registry and tag differ in more than ObjectMeta.Name, because the container is named after
the clock reading too, so the container lists differ. -/
theorem c3_container_name_follows_clock :
    ∃ pod1 pod2,
      migrationsPod ⟨"kots-ns", false⟩ "registry.example.com" "v1.2.3" 1 = some pod1 ∧
      migrationsPod ⟨"kots-ns", false⟩ "registry.example.com" "v1.2.3" 2 = some pod2 ∧
      pod1.Spec.Containers.map Container.Name = ["kotsadm-migrations-1"] ∧
      pod2.Spec.Containers.map Container.Name = ["kotsadm-migrations-2"] ∧
      pod1.Spec.Containers ≠ pod2.Spec.Containers ∧
      { pod1 with ObjectMeta := { pod1.ObjectMeta with Name := pod2.ObjectMeta.Name } }
        ≠ pod2 := by
  refine ⟨_, _, migrationsPod_eq _ _ _ _, migrationsPod_eq _ _ _ _, ?_, ?_, ?_, ?_⟩
  · decide
  · decide
  · decide
  · decide

/-- C3, amended: two calls with the same DeployOptions, registry and tag at any two clock
readings return pods that are equal in every field except the pod's ObjectMeta.Name and
the Name of its single container, which both are the name of the clock reading. -/
theorem c3_same_shape_up_to_names (deployOptions : DeployOptions) (registry tag : String)
    (now1 now2 : Int) :
    ∃ pod1 pod2 container1,
      migrationsPod deployOptions registry tag now1 = some pod1 ∧
      migrationsPod deployOptions registry tag now2 = some pod2 ∧
      pod1.Spec.Containers = [container1] ∧
      pod2 = { pod1 with
        ObjectMeta := { pod1.ObjectMeta with Name := migrationsName now2 }
        Spec := { pod1.Spec with
          Containers := [{ container1 with Name := migrationsName now2 }] } } := by
  exact ⟨_, _, _, migrationsPod_eq _ _ _ _, migrationsPod_eq _ _ _ _, rfl, rfl⟩

/-- C4: for every namespace, registry, tag and clock reading the pods built for
IsOpenShift = false and IsOpenShift = true differ in the security context and in nothing
else: name, namespace, restart policy and the container list are equal. -/
theorem c4_platforms_differ_in_security_context_only (ns registry tag : String)
    (now : Int) :
    ∃ podStandard podOpenShift,
      migrationsPod ⟨ns, false⟩ registry tag now = some podStandard ∧
      migrationsPod ⟨ns, true⟩ registry tag now = some podOpenShift ∧
      podStandard.ObjectMeta.Name = podOpenShift.ObjectMeta.Name ∧
      podStandard.ObjectMeta.Namespace = podOpenShift.ObjectMeta.Namespace ∧
      podStandard.Spec.RestartPolicy = podOpenShift.Spec.RestartPolicy ∧
      podStandard.Spec.Containers = podOpenShift.Spec.Containers ∧
      podStandard.Spec.SecurityContext ≠ podOpenShift.Spec.SecurityContext ∧
      podOpenShift = { podStandard with
        Spec := { podStandard.Spec with
          SecurityContext := podOpenShift.Spec.SecurityContext } } := by
  refine ⟨_, _, migrationsPod_eq _ _ _ _, migrationsPod_eq _ _ _ _, rfl, rfl, rfl, rfl,
    ?_, rfl⟩
  simp

/-! ## The container -/

/-- C5: for every input the pod has exactly one container, and that container has exactly
three env entries, in this order: SCHEMAHERO_DRIVER with the literal "postgres" and no
source, SCHEMAHERO_SPEC_FILE with the literal "/tables" and no source, and SCHEMAHERO_URI
with an empty literal and a reference to key "uri" of the secret "kotsadm-postgres". -/
theorem c5_one_container_three_env_entries (deployOptions : DeployOptions)
    (registry tag : String) (now : Int) :
    ∃ pod container, migrationsPod deployOptions registry tag now = some pod ∧
      pod.Spec.Containers = [container] ∧
      container.Env = [
        { Name := "SCHEMAHERO_DRIVER", Value := "postgres", ValueFrom := none },
        { Name := "SCHEMAHERO_SPEC_FILE", Value := "/tables", ValueFrom := none },
        { Name := "SCHEMAHERO_URI", Value := "",
          ValueFrom := some {
            FieldRef := none
            ConfigMapKeyRef := none
            SecretKeyRef := some {
              LocalObjectReference := { Name := "kotsadm-postgres" }
              Key := "uri"
              Optional := none } } } ] :=
  ⟨_, _, migrationsPod_eq _ _ _ _, rfl, rfl⟩

/-- C6: the four quantity literals parse, so the builder returns for every input; the
resources of the single container are exactly the requests CPU "20m" (20 thousandths of a
core) and memory "128Mi" (134217728 bytes, which is 128 * 2 ^ 20) and the limits CPU
"200m" (200 thousandths of a core) and memory "256Mi" (268435456 bytes, which is
256 * 2 ^ 20), and each request is at most its limit. -/
theorem c6_requests_at_most_limits (deployOptions : DeployOptions) (registry tag : String)
    (now : Int) :
    ∃ pod container requestsCPU requestsMemory limitsCPU limitsMemory,
      MustParse "20m" = some requestsCPU ∧ MustParse "128Mi" = some requestsMemory ∧
      MustParse "200m" = some limitsCPU ∧ MustParse "256Mi" = some limitsMemory ∧
      migrationsPod deployOptions registry tag now = some pod ∧
      pod.Spec.Containers = [container] ∧
      container.Resources.Requests
        = [(ResourceCPU, requestsCPU), (ResourceMemory, requestsMemory)] ∧
      container.Resources.Limits
        = [(ResourceCPU, limitsCPU), (ResourceMemory, limitsMemory)] ∧
      container.Resources.Requests.get ResourceCPU = some requestsCPU ∧
      container.Resources.Requests.get ResourceMemory = some requestsMemory ∧
      container.Resources.Limits.get ResourceCPU = some limitsCPU ∧
      container.Resources.Limits.get ResourceMemory = some limitsMemory ∧
      requestsCPU = ⟨20, -3, Format.DecimalSI⟩ ∧
      requestsMemory = ⟨134217728, 0, Format.BinarySI⟩ ∧
      limitsCPU = ⟨200, -3, Format.DecimalSI⟩ ∧
      limitsMemory = ⟨268435456, 0, Format.BinarySI⟩ ∧
      requestsCPU.amount = 20 / 1000 ∧ requestsMemory.amount = 128 * 2 ^ 20 ∧
      limitsCPU.amount = 200 / 1000 ∧ limitsMemory.amount = 256 * 2 ^ 20 ∧
      requestsMemory.amount = 134217728 ∧ limitsMemory.amount = 268435456 ∧
      requestsCPU.amount ≤ limitsCPU.amount ∧ requestsMemory.amount ≤ limitsMemory.amount ∧
      requestsCPU.le limitsCPU = true ∧ requestsMemory.le limitsMemory = true := by
  refine ⟨_, _, ⟨20, -3, Format.DecimalSI⟩, ⟨134217728, 0, Format.BinarySI⟩,
    ⟨200, -3, Format.DecimalSI⟩, ⟨268435456, 0, Format.BinarySI⟩,
    by decide, by decide, by decide, by decide,
    migrationsPod_eq _ _ _ _, rfl, rfl, rfl, by dsimp only; decide, by dsimp only; decide,
    by dsimp only; decide, by dsimp only; decide,
    rfl, rfl, rfl, rfl, ?_, ?_, ?_, ?_, ?_, ?_, ?_, ?_, by decide, by decide⟩
  all_goals norm_num [Quantity.amount]

/-- C7: for every registry r and tag t the image of the single container is
r ++ "/kotsadm-migrations:" ++ t, whatever the DeployOptions and the clock reading; for
"registry.example.com" and "v1.2.3" it is
"registry.example.com/kotsadm-migrations:v1.2.3". -/
theorem c7_image_reference (deployOptions : DeployOptions) (registry tag : String)
    (now : Int) :
    (∃ pod container, migrationsPod deployOptions registry tag now = some pod ∧
      pod.Spec.Containers = [container] ∧
      container.Image = registry ++ "/kotsadm-migrations:" ++ tag) ∧
    (∃ pod container,
      migrationsPod deployOptions "registry.example.com" "v1.2.3" now = some pod ∧
      pod.Spec.Containers = [container] ∧
      container.Image = "registry.example.com/kotsadm-migrations:v1.2.3") :=
  ⟨⟨_, _, migrationsPod_eq _ _ _ _, rfl, rfl⟩, ⟨_, _, migrationsPod_eq _ _ _ _, rfl, by dsimp only; decide⟩⟩

/-! ## Name and namespace -/

/-- C8: the pod name is "kotsadm-migrations-" followed by the decimal rendering of the
clock reading (reading the rendering back gives the clock reading), and for any two calls
the names are equal if and only if the clock readings are equal. This holds for every
integer, so for every 64-bit signed reading. -/
theorem c8_name_injective_in_clock (deployOptions1 deployOptions2 : DeployOptions)
    (registry1 tag1 registry2 tag2 : String) (now1 now2 : Int) :
    ∃ pod1 pod2,
      migrationsPod deployOptions1 registry1 tag1 now1 = some pod1 ∧
      migrationsPod deployOptions2 registry2 tag2 now2 = some pod2 ∧
      pod1.ObjectMeta.Name = "kotsadm-migrations-" ++ formatInt now1 ∧
      readInt (formatInt now1) = now1 ∧
      (pod1.ObjectMeta.Name = pod2.ObjectMeta.Name ↔ now1 = now2) :=
  ⟨_, _, migrationsPod_eq _ _ _ _, migrationsPod_eq _ _ _ _, rfl, readInt_formatInt now1,
    migrationsName_eq_iff now1 now2⟩

/-- C9: for every DeployOptions, an empty namespace included, the builder returns a pod
and the namespace of the pod is the namespace of the options, unchanged. -/
theorem c9_namespace_copied (deployOptions : DeployOptions) (registry tag : String)
    (now : Int) :
    (∃ pod, migrationsPod deployOptions registry tag now = some pod ∧
      pod.ObjectMeta.Namespace = deployOptions.Namespace) ∧
    (∃ pod, migrationsPod ⟨"", deployOptions.IsOpenShift⟩ registry tag now = some pod ∧
      pod.ObjectMeta.Namespace = "") :=
  ⟨⟨_, migrationsPod_eq _ _ _ _, rfl⟩, ⟨_, migrationsPod_eq _ _ _ _, rfl⟩⟩

/-- C10: for every input the restart policy of the pod is OnFailure and the image pull
policy of its single container is Always. -/
theorem c10_restart_and_pull_policy (deployOptions : DeployOptions) (registry tag : String)
    (now : Int) :
    ∃ pod container, migrationsPod deployOptions registry tag now = some pod ∧
      pod.Spec.Containers = [container] ∧
      pod.Spec.RestartPolicy = RestartPolicyOnFailure ∧
      container.ImagePullPolicy = PullAlways ∧
      RestartPolicyOnFailure = "OnFailure" ∧ PullAlways = "Always" :=
  ⟨_, _, migrationsPod_eq _ _ _ _, rfl, rfl, rfl, rfl, rfl⟩

end Kotsadm
